import Mathlib

/-!
Shallow embedding of the MIDI event classifier/formatter `src/event.cpp`
(repository `marchersimon/icl`).  Bytes are modelled as `Nat`, the C++
`int` results that can be negative (`getEventLength`) as `Int`, and
`std::string` as Lean `String` (whose `data` field is a `List Char`,
matching the character-indexed operations of the source).  The `print`
member assembles a row string and hands it to `Log::debug`; the embedding
returns that row.
-/

/-- Modelled from the spec: the event-type constants are declared in
`event.h`, which is not among the provided sources.  The spec (sections 3
and 4.1) enumerates the 22 event kinds — seven MIDI channel-voice message
kinds whose status byte carries the kind in the high nibble and the
channel in the low nibble, and fifteen meta-event kinds disambiguated by
the caller-set `meta` flag — with their canonical MIDI byte values. -/
def NOTE_OFF : Nat := 0x80

def NOTE_ON : Nat := 0x90

def KEY_PRESSURE : Nat := 0xA0

def CONTROL_CHANGE : Nat := 0xB0

def PROGRAM_CHANGE : Nat := 0xC0

def CHANNEL_PRESSURE : Nat := 0xD0

def PITCH_WHEEL_CHANGE : Nat := 0xE0

def SEQUENCE_NUMBER : Nat := 0x00

def TEXT_EVENT : Nat := 0x01

def COPYRIGHT : Nat := 0x02

def SEQUENCE_NAME : Nat := 0x03

def INSTRUMENT : Nat := 0x04

def LYRIC : Nat := 0x05

def MARKER_TEXT : Nat := 0x06

def CUE_POINT : Nat := 0x07

def MIDI_CHANNEL_PREFIX : Nat := 0x20

def END_OF_TRACK : Nat := 0x2F

def TEMPO : Nat := 0x51

def SMPTE_OFFSET : Nat := 0x54

def TIME_SIGNATURE : Nat := 0x58

def KEY_SIGNATURE : Nat := 0x59

def SEQUENCER_SPECIFIC : Nat := 0x7F

/-- Modelled from the spec: the `Event` record is declared in `event.h`,
which is not among the provided sources.  Field list and types follow the
spec's data model (section 3): `type`, `note`, `velocity` are bytes;
`tempo`, `totalTime`, `delta` are integers; `meta` is a boolean.  The
fields match exactly the members used by `src/event.cpp`. -/
structure Event where
  type : Nat
  meta : Bool
  note : Nat
  velocity : Nat
  tempo : Int
  totalTime : Int
  delta : Int

/-- `Event::getEventName` (src/event.cpp lines 3-34): the bitmask check
for system messages first, then the 22-entry switch, then the fallback. -/
def Event.getEventName (e : Event) : String :=
  if e.type &&& 0xF0 = 0xF0 then "System message"
  else if e.type = NOTE_OFF then "Note off"
  else if e.type = NOTE_ON then "Note on"
  else if e.type = KEY_PRESSURE then "Polyphonic key pressure"
  else if e.type = CONTROL_CHANGE then "Control change"
  else if e.type = PROGRAM_CHANGE then "Program change"
  else if e.type = CHANNEL_PRESSURE then "Channel pressure"
  else if e.type = PITCH_WHEEL_CHANGE then "Pitch wheel change"
  else if e.type = SEQUENCE_NUMBER then "Sequence number"
  else if e.type = TEXT_EVENT then "Text event"
  else if e.type = COPYRIGHT then "Copyright notice"
  else if e.type = SEQUENCE_NAME then "Sequence or track name"
  else if e.type = INSTRUMENT then "Instrument name"
  else if e.type = LYRIC then "Lyric text"
  else if e.type = MARKER_TEXT then "Marker text"
  else if e.type = CUE_POINT then "Cue point"
  else if e.type = MIDI_CHANNEL_PREFIX then "MIDI channel prefix assignment"
  else if e.type = END_OF_TRACK then "End of track"
  else if e.type = TEMPO then "Tempo setting"
  else if e.type = SMPTE_OFFSET then "SMPTE offset"
  else if e.type = TIME_SIGNATURE then "Time signature"
  else if e.type = KEY_SIGNATURE then "Key signature"
  else if e.type = SEQUENCER_SPECIFIC then "Sequencer specific event"
  else "Unknown event type"

/-- `Event::getEventLength` (src/event.cpp lines 36-54): the 12-entry
switch over fixed payload lengths, with `-1` as the fall-through result. -/
def Event.getEventLength (e : Event) : Int :=
  if e.type = KEY_PRESSURE then 2
  else if e.type = CONTROL_CHANGE then 2
  else if e.type = PROGRAM_CHANGE then 1
  else if e.type = CHANNEL_PRESSURE then 1
  else if e.type = PITCH_WHEEL_CHANGE then 2
  else if e.type = SEQUENCE_NUMBER then 2
  else if e.type = MIDI_CHANNEL_PREFIX then 1
  else if e.type = END_OF_TRACK then 0
  else if e.type = TEMPO then 3
  else if e.type = SMPTE_OFFSET then 5
  else if e.type = TIME_SIGNATURE then 4
  else if e.type = KEY_SIGNATURE then 2
  else -1

/-- `Event::getNoteName` (src/event.cpp lines 56-75): switch on
`note % 12` appending a pitch-class name (the default of the switch
appends nothing), then append `std::to_string((int)(note / 12) - 1)`. -/
def Event.getNoteName (e : Event) : String :=
  let noteName : String :=
    if e.note % 12 = 0 then "C"
    else if e.note % 12 = 1 then "C#"
    else if e.note % 12 = 2 then "D"
    else if e.note % 12 = 3 then "D#"
    else if e.note % 12 = 4 then "E"
    else if e.note % 12 = 5 then "F"
    else if e.note % 12 = 6 then "F#"
    else if e.note % 12 = 7 then "G"
    else if e.note % 12 = 8 then "G#"
    else if e.note % 12 = 9 then "A"
    else if e.note % 12 = 10 then "A#"
    else if e.note % 12 = 11 then "B"
    else ""
  noteName ++ toString ((e.note / 12 : Nat) - (1 : Int) : Int)

/-- `Event::stripChannel` (src/event.cpp lines 77-79): `type &= 0xF0`,
modelled as a record update returning the post-state. -/
def Event.stripChannel (e : Event) : Event :=
  { e with type := e.type &&& 0xF0 }

/-- `Event::getChannel` (src/event.cpp lines 81-83): `type & 0x0F`
(the C++ `int` result is the low nibble, always in 0..15). -/
def Event.getChannel (e : Event) : Nat :=
  e.type &&& 0x0F

namespace Log

/-- Modelled from the spec: the hex-formatting collaborator
`Log::to_hex_string` (declared in `log.h`; its definition `log.cpp` is not
among the provided sources).  Per spec section 6 it takes a numeric value
plus an optional flag selecting a fixed-width zero-padded offset rendering
versus a bare two-hex-digit byte rendering, lowercase, with no claim
depending on the exact offset width (four zero-padded digits after `0x`
are used here, filling the width-6 offset column). -/
def to_hex_string (num : Nat) (padded : Bool) : String :=
  if padded then
    "0x" ++ String.mk [Nat.digitChar (num / 4096 % 16), Nat.digitChar (num / 256 % 16),
      Nat.digitChar (num / 16 % 16), Nat.digitChar (num % 16)]
  else
    String.mk [Nat.digitChar (num / 16 % 16), Nat.digitChar (num % 16)]

end Log

/-- `Event::formatColumn` (src/event.cpp lines 124-129): the while loop
appending a single space as long as `width - (int)s.length() > 0`. -/
def Event.formatColumn (s : String) (width : Nat) : String :=
  if h : s.length < width then Event.formatColumn (s ++ " ") width else s
termination_by width - s.length
decreasing_by
  have hone : (" " : String).length = 1 := rfl
  simp only [String.length_append, hone]
  omega

/-- Models `std::string::replace(pos, count, repl)` on character lists:
the characters in `[pos, pos + count)` are replaced by `repl`.  (The C++
call throws when `pos > size()`; the embedding of the one call site is
shown in-range, see the safety theorem for the truncation branch.) -/
def strReplaceRange (s : String) (pos count : Nat) (repl : String) : String :=
  String.mk (s.data.take pos ++ repl.data ++ s.data.drop (pos + count))

/-- The hex-dump accumulation loop of `Event::print` (src/event.cpp lines
90-93): for `i` in `[0, len)`, append `Log::to_hex_string(file[pos+i],
false)` and a space.  The byte read is modelled with `List.getD` (the
source performs an unchecked read; the spec restricts it to the window). -/
def Event.hexDumpContent (file : List Nat) (pos len : Nat) : String :=
  (List.range len).foldl
    (fun content i => content ++ Log.to_hex_string (file.getD (pos + i) 0) false ++ " ")
    ""

/-- The hex-dump truncation of `Event::print` (src/event.cpp lines 94-96):
`if(content.length() > 39) content.replace(27, content.length() - 34, "[...]")`. -/
def Event.truncContent (content : String) : String :=
  if content.length > 39 then
    strReplaceRange content 27 (content.length - 34) "[...]"
  else content

/-- `Event::print` (src/event.cpp lines 85-122): the sequence of
`row += ...` statements, rendered as one left-associated append in the
same order; the returned string is the row the source hands to
`Log::debug`. -/
def Event.print (e : Event) (pos : Nat) (file : List Nat) (len : Nat) : String :=
  Event.formatColumn (Log.to_hex_string pos true) 6
    ++ " | "
    ++ Event.formatColumn (Event.truncContent (Event.hexDumpContent file pos len)) 39
    ++ "| "
    ++ Event.formatColumn (toString e.totalTime) 6
    ++ " | "
    ++ Event.formatColumn (toString e.delta) 6
    ++ " | "
    ++ Event.formatColumn e.getEventName 25
    ++ " | "
    ++ (if e.meta then "          "
        else Event.formatColumn ("Channel " ++ toString e.getChannel) 10)
    ++ " | "
    ++ (if e.type = NOTE_ON ∨ e.type = NOTE_OFF then
          Event.formatColumn ("Note " ++ e.getNoteName) 9
            ++ "at velocity " ++ toString e.velocity
        else if e.type = TEMPO then
          Event.formatColumn (toString e.tempo) 6 ++ " us per quarter note"
        else "")

/-- An `Event` whose `type` is `t` and whose remaining fields are zeroed;
used to evaluate the classification members at concrete status bytes. -/
def evOfType (t : Nat) : Event :=
  ⟨t, false, 0, 0, 0, 0, 0⟩

/-- State-passing reading of `Event::getEventName`: each C++ `return`
yields the result paired with the state of `*this` at that point; the body
assigns no field, so each return site carries the entry state `e`. -/
def Event.getEventNameS (e : Event) : String × Event :=
  if e.type &&& 0xF0 = 0xF0 then ("System message", e)
  else if e.type = NOTE_OFF then ("Note off", e)
  else if e.type = NOTE_ON then ("Note on", e)
  else if e.type = KEY_PRESSURE then ("Polyphonic key pressure", e)
  else if e.type = CONTROL_CHANGE then ("Control change", e)
  else if e.type = PROGRAM_CHANGE then ("Program change", e)
  else if e.type = CHANNEL_PRESSURE then ("Channel pressure", e)
  else if e.type = PITCH_WHEEL_CHANGE then ("Pitch wheel change", e)
  else if e.type = SEQUENCE_NUMBER then ("Sequence number", e)
  else if e.type = TEXT_EVENT then ("Text event", e)
  else if e.type = COPYRIGHT then ("Copyright notice", e)
  else if e.type = SEQUENCE_NAME then ("Sequence or track name", e)
  else if e.type = INSTRUMENT then ("Instrument name", e)
  else if e.type = LYRIC then ("Lyric text", e)
  else if e.type = MARKER_TEXT then ("Marker text", e)
  else if e.type = CUE_POINT then ("Cue point", e)
  else if e.type = MIDI_CHANNEL_PREFIX then ("MIDI channel prefix assignment", e)
  else if e.type = END_OF_TRACK then ("End of track", e)
  else if e.type = TEMPO then ("Tempo setting", e)
  else if e.type = SMPTE_OFFSET then ("SMPTE offset", e)
  else if e.type = TIME_SIGNATURE then ("Time signature", e)
  else if e.type = KEY_SIGNATURE then ("Key signature", e)
  else if e.type = SEQUENCER_SPECIFIC then ("Sequencer specific event", e)
  else ("Unknown event type", e)

/-- State-passing reading of `Event::getEventLength`: the body assigns no
field, so each return site carries the entry state `e`. -/
def Event.getEventLengthS (e : Event) : Int × Event :=
  if e.type = KEY_PRESSURE then (2, e)
  else if e.type = CONTROL_CHANGE then (2, e)
  else if e.type = PROGRAM_CHANGE then (1, e)
  else if e.type = CHANNEL_PRESSURE then (1, e)
  else if e.type = PITCH_WHEEL_CHANGE then (2, e)
  else if e.type = SEQUENCE_NUMBER then (2, e)
  else if e.type = MIDI_CHANNEL_PREFIX then (1, e)
  else if e.type = END_OF_TRACK then (0, e)
  else if e.type = TEMPO then (3, e)
  else if e.type = SMPTE_OFFSET then (5, e)
  else if e.type = TIME_SIGNATURE then (4, e)
  else if e.type = KEY_SIGNATURE then (2, e)
  else (-1, e)

/-- State-passing reading of `Event::getNoteName`: only the local
`noteName` is mutated, never a field of `*this`, so the single return site
carries the entry state `e`. -/
def Event.getNoteNameS (e : Event) : String × Event :=
  let noteName : String :=
    if e.note % 12 = 0 then "C"
    else if e.note % 12 = 1 then "C#"
    else if e.note % 12 = 2 then "D"
    else if e.note % 12 = 3 then "D#"
    else if e.note % 12 = 4 then "E"
    else if e.note % 12 = 5 then "F"
    else if e.note % 12 = 6 then "F#"
    else if e.note % 12 = 7 then "G"
    else if e.note % 12 = 8 then "G#"
    else if e.note % 12 = 9 then "A"
    else if e.note % 12 = 10 then "A#"
    else if e.note % 12 = 11 then "B"
    else ""
  (noteName ++ toString ((e.note / 12 : Nat) - (1 : Int) : Int), e)

/-- State-passing reading of `Event::getChannel`: the body assigns no
field. -/
def Event.getChannelS (e : Event) : Nat × Event :=
  (e.type &&& 0x0F, e)

/-- State-passing reading of `Event::stripChannel`: the single statement
`type &= 0xF0` updates the `type` field and returns nothing. -/
def Event.stripChannelS (e : Event) : Unit × Event :=
  ((), { e with type := e.type &&& 0xF0 })

/-- The sharps spelling of the twelve pitch classes, as the spec lists
them; the spec-side counterpart of the `note % 12` switch in
`Event::getNoteName`. -/
def sharpsList : List String :=
  "C" :: "C#" :: "D" :: "D#" :: "E" :: "F" ::
    "F#" :: "G" :: "G#" :: "A" :: "A#" :: "B" :: []

/-- The concrete Note-On event of the spec's end-to-end example:
`type = 0x90`, `meta = false`, `note = 60`, `velocity = 100`,
`totalTime = 480`, `delta = 480`. -/
def noteOnEvent : Event :=
  ⟨0x90, false, 60, 100, 0, 480, 480⟩

/-- A raw-byte buffer holding `{0x90, 0x3C, 0x64}` at offset `0x10`. -/
def noteOnFile : List Nat :=
  List.replicate 16 0 ++ [0x90, 0x3C, 0x64]

/-- Decides whether `pat` occurs as a contiguous run inside `l`. -/
def hasSubList (pat : List Char) : List Char → Bool
  | [] => pat.isPrefixOf []
  | c :: rest => pat.isPrefixOf (c :: rest) || hasSubList pat rest

/-- Decides whether the string `pat` occurs contiguously inside `s`. -/
def strContainsSub (s pat : String) : Bool :=
  hasSubList pat.data s.data

/-- Closed form of the space-appending loop of `Event::formatColumn`. -/
theorem formatColumn_eq (s : String) (width : Nat) :
    Event.formatColumn s width = s ++ String.mk (List.replicate (width - s.length) ' ') := by
  rw [Event.formatColumn]
  by_cases h : s.length < width
  · rw [dif_pos h, formatColumn_eq (s ++ " ") width]
    apply String.ext
    simp only [String.data_append, List.append_assoc]
    congr 1
    have hone : (" " : String).data = [' '] := rfl
    have hlen : (s ++ " ").length = s.length + 1 := by
      rw [String.length_append]
      rfl
    rw [hlen]
    have hsplit : width - s.length = (width - (s.length + 1)) + 1 := by omega
    rw [hsplit, List.replicate_succ]
    rfl
  · rw [dif_neg h]
    have hz : width - s.length = 0 := by omega
    apply String.ext
    simp [hz, String.data_append]
termination_by width - s.length
decreasing_by
  have hone : (" " : String).length = 1 := rfl
  simp only [String.length_append, hone]
  omega

/-- Unfolding step for the hex-dump loop: one more iteration appends the
two hex digits of the next byte and a space. -/
theorem hexDumpContent_succ (file : List Nat) (pos len : Nat) :
    Event.hexDumpContent file pos (len + 1) =
      Event.hexDumpContent file pos len
        ++ Log.to_hex_string (file.getD (pos + len) 0) false ++ " " := by
  unfold Event.hexDumpContent
  rw [List.range_succ, List.foldl_append]
  rfl

/-- The hex dump contributes exactly three characters per raw byte. -/
theorem hexDumpContent_length (file : List Nat) (pos len : Nat) :
    (Event.hexDumpContent file pos len).length = 3 * len := by
  induction len with
  | zero => rfl
  | succ n ih =>
    rw [hexDumpContent_succ, String.length_append, String.length_append, ih]
    have h2 : (Log.to_hex_string (file.getD (pos + n) 0) false).length = 2 := rfl
    have h1 : (" " : String).length = 1 := rfl
    rw [h2, h1]
    ring

/-- `Nat.digitChar` never produces an opening square bracket on the hex
digit range. -/
theorem digitChar_ne_bracket : ∀ n < 16, Nat.digitChar n ≠ '[' := by decide

/-- No character of the assembled hex dump is an opening square bracket. -/
theorem hexDumpContent_no_bracket (file : List Nat) (pos len : Nat) :
    ∀ c ∈ (Event.hexDumpContent file pos len).data, c ≠ '[' := by
  induction len with
  | zero =>
    intro c hc
    simp [Event.hexDumpContent] at hc
  | succ n ih =>
    intro c hc
    rw [hexDumpContent_succ, String.data_append, String.data_append] at hc
    simp only [List.mem_append] at hc
    rcases hc with (hc | hc) | hc
    · exact ih c hc
    · have hdata : (Log.to_hex_string (file.getD (pos + n) 0) false).data =
          [Nat.digitChar (file.getD (pos + n) 0 / 16 % 16),
           Nat.digitChar (file.getD (pos + n) 0 % 16)] := rfl
      rw [hdata] at hc
      simp only [List.mem_cons, List.not_mem_nil, or_false] at hc
      rcases hc with hc | hc <;>
        (subst hc; exact digitChar_ne_bracket _ (Nat.mod_lt _ (by norm_num)))
    · have hsp : c = ' ' := by simpa using hc
      subst hsp
      decide

/-- A character list containing no opening bracket contains no occurrence
of the marker `"[...]"`. -/
theorem hasSubList_marker_eq_false (l : List Char) (h : ∀ c ∈ l, c ≠ '[') :
    hasSubList ("[...]".data) l = false := by
  induction l with
  | nil => rfl
  | cons c rest ih =>
    have hc : c ≠ '[' := h c (by simp)
    rw [hasSubList]
    have hm : "[...]".data = '[' :: ['.', '.', '.', ']'] := rfl
    have hpre : ("[...]".data).isPrefixOf (c :: rest) = false := by
      rw [hm]
      have hbeq : ('[' == c) = false := by
        rw [beq_eq_false_iff_ne]
        exact fun he => hc he.symm
      simp [List.isPrefixOf, hbeq]
    rw [hpre, Bool.false_or]
    exact ih fun x hx => h x (by simp [hx])

/-- C2: `getEventName` maps each of the 22 enumerated event-type
constants to its display name; in particular `NOTE_ON` to `"Note on"` and
`NOTE_OFF` to `"Note off"`. -/
theorem getEventName_maps_constants :
    (evOfType NOTE_OFF).getEventName = "Note off" ∧
    (evOfType NOTE_ON).getEventName = "Note on" ∧
    (evOfType KEY_PRESSURE).getEventName = "Polyphonic key pressure" ∧
    (evOfType CONTROL_CHANGE).getEventName = "Control change" ∧
    (evOfType PROGRAM_CHANGE).getEventName = "Program change" ∧
    (evOfType CHANNEL_PRESSURE).getEventName = "Channel pressure" ∧
    (evOfType PITCH_WHEEL_CHANGE).getEventName = "Pitch wheel change" ∧
    (evOfType SEQUENCE_NUMBER).getEventName = "Sequence number" ∧
    (evOfType TEXT_EVENT).getEventName = "Text event" ∧
    (evOfType COPYRIGHT).getEventName = "Copyright notice" ∧
    (evOfType SEQUENCE_NAME).getEventName = "Sequence or track name" ∧
    (evOfType INSTRUMENT).getEventName = "Instrument name" ∧
    (evOfType LYRIC).getEventName = "Lyric text" ∧
    (evOfType MARKER_TEXT).getEventName = "Marker text" ∧
    (evOfType CUE_POINT).getEventName = "Cue point" ∧
    (evOfType MIDI_CHANNEL_PREFIX).getEventName = "MIDI channel prefix assignment" ∧
    (evOfType END_OF_TRACK).getEventName = "End of track" ∧
    (evOfType TEMPO).getEventName = "Tempo setting" ∧
    (evOfType SMPTE_OFFSET).getEventName = "SMPTE offset" ∧
    (evOfType TIME_SIGNATURE).getEventName = "Time signature" ∧
    (evOfType KEY_SIGNATURE).getEventName = "Key signature" ∧
    (evOfType SEQUENCER_SPECIFIC).getEventName = "Sequencer specific event" := by
  decide

/-- C6: `getChannel` returns the low nibble `type & 0x0F` and
`stripChannel` masks `type` with `0xF0`; in particular channel 1 and
stripped type `0x90` for status byte `0x91`. -/
theorem getChannel_low_nibble_stripChannel_high_nibble (e : Event) :
    e.getChannel = e.type &&& 0x0F ∧
    (e.stripChannel).type = e.type &&& 0xF0 ∧
    (evOfType 0x91).getChannel = 1 ∧
    ((evOfType 0x91).stripChannel).type = 0x90 :=
  ⟨rfl, rfl, by decide, by decide⟩

/-- C7: `formatColumn` appends single spaces until the text reaches the
given width, is the identity when the text is already at or beyond the
width, and never truncates; `pad("abc", 6) = "abc   "` and
`pad("abcdef", 3) = "abcdef"`. -/
theorem formatColumn_pads_never_truncates (s : String) (width : Nat) :
    Event.formatColumn s width = s ++ String.mk (List.replicate (width - s.length) ' ') ∧
    (Event.formatColumn s width).length = max s.length width ∧
    (width ≤ s.length → Event.formatColumn s width = s) ∧
    Event.formatColumn "abc" 6 = "abc   " ∧
    Event.formatColumn "abcdef" 3 = "abcdef" := by
  refine ⟨formatColumn_eq s width, ?_, ?_, ?_, ?_⟩
  · rw [formatColumn_eq, String.length_append]
    have hmk : (String.mk (List.replicate (width - s.length) ' ')).length
        = width - s.length := by
      show (List.replicate (width - s.length) ' ').length = width - s.length
      exact List.length_replicate _ _
    rw [hmk]
    omega
  · intro hle
    rw [formatColumn_eq]
    have hz : width - s.length = 0 := by omega
    apply String.ext
    simp [hz, String.data_append]
  · rw [formatColumn_eq]
    decide
  · rw [formatColumn_eq]
    decide

/-- C7 witness: at the claim's concrete inputs, the already-wide text is
left unchanged. -/
theorem formatColumn_pads_never_truncates_witness :
    3 ≤ ("abcdef" : String).length ∧ Event.formatColumn "abcdef" 3 = "abcdef" :=
  ⟨by decide, (formatColumn_pads_never_truncates "abcdef" 3).2.2.1 (by decide)⟩

/-- A conditional whose branches pair distinct results with the same
state equals the pairing of the conditional result with that state. -/
theorem ite_pair_right {α β : Type} (c : Prop) [Decidable c] (a₁ a₂ : α) (b : β) :
    (if c then (a₁, b) else (a₂, b)) = ((if c then a₁ else a₂), b) := by
  split <;> rfl

/-- C9: in the state-passing reading of the member functions,
`stripChannel` updates only the `type` field (to `type & 0xF0`) and the
four classification members return their value-level result paired with
the record unchanged. -/
theorem stripChannel_frame_and_classifiers_pure (e : Event) :
    ((e.stripChannelS).2.type = e.type &&& 0xF0 ∧
     (e.stripChannelS).2.meta = e.meta ∧
     (e.stripChannelS).2.note = e.note ∧
     (e.stripChannelS).2.velocity = e.velocity ∧
     (e.stripChannelS).2.tempo = e.tempo ∧
     (e.stripChannelS).2.totalTime = e.totalTime ∧
     (e.stripChannelS).2.delta = e.delta) ∧
    (e.stripChannelS).2 = e.stripChannel ∧
    e.getEventNameS = (e.getEventName, e) ∧
    e.getEventLengthS = (e.getEventLength, e) ∧
    e.getNoteNameS = (e.getNoteName, e) ∧
    e.getChannelS = (e.getChannel, e) := by
  refine ⟨⟨rfl, rfl, rfl, rfl, rfl, rfl, rfl⟩, rfl, ?_, ?_, rfl, rfl⟩
  · unfold Event.getEventNameS Event.getEventName
    simp only [ite_pair_right]
  · unfold Event.getEventLengthS Event.getEventLength
    simp only [ite_pair_right]

/-- C1: for every status byte with high nibble `0xF`, `getEventName`
returns `"System message"` (the bitmask check precedes the table); for
every byte whose high nibble is not `0xF` and which matches none of the 22
table constants, it returns `"Unknown event type"`. -/
theorem getEventName_system_priority_and_unknown_fallback (e : Event)
    (hbyte : e.type < 256) :
    (e.type &&& 0xF0 = 0xF0 → e.getEventName = "System message") ∧
    (e.type &&& 0xF0 ≠ 0xF0 →
      e.type ∉ [NOTE_OFF, NOTE_ON, KEY_PRESSURE, CONTROL_CHANGE, PROGRAM_CHANGE,
        CHANNEL_PRESSURE, PITCH_WHEEL_CHANGE, SEQUENCE_NUMBER, TEXT_EVENT, COPYRIGHT,
        SEQUENCE_NAME, INSTRUMENT, LYRIC, MARKER_TEXT, CUE_POINT, MIDI_CHANNEL_PREFIX,
        END_OF_TRACK, TEMPO, SMPTE_OFFSET, TIME_SIGNATURE, KEY_SIGNATURE,
        SEQUENCER_SPECIFIC] →
      e.getEventName = "Unknown event type") := by
  constructor
  · intro hF
    rw [Event.getEventName, if_pos hF]
  · intro hF hmem
    simp only [List.mem_cons, List.not_mem_nil, or_false, not_or] at hmem
    obtain ⟨hq1, hq2, hq3, hq4, hq5, hq6, hq7, hq8, hq9, hq10, hq11, hq12, hq13,
      hq14, hq15, hq16, hq17, hq18, hq19, hq20, hq21, hq22⟩ := hmem
    rw [Event.getEventName, if_neg hF, if_neg hq1, if_neg hq2, if_neg hq3,
      if_neg hq4, if_neg hq5, if_neg hq6, if_neg hq7, if_neg hq8, if_neg hq9,
      if_neg hq10, if_neg hq11, if_neg hq12, if_neg hq13, if_neg hq14, if_neg hq15,
      if_neg hq16, if_neg hq17, if_neg hq18, if_neg hq19, if_neg hq20, if_neg hq21,
      if_neg hq22]

/-- C1 witness: status byte `0xF7` is classified as a system message and
status byte `0x42` falls through to the unknown-type name. -/
theorem getEventName_system_priority_and_unknown_fallback_witness :
    (evOfType 0xF7).getEventName = "System message" ∧
    (evOfType 0x42).getEventName = "Unknown event type" :=
  ⟨(getEventName_system_priority_and_unknown_fallback (evOfType 0xF7) (by decide)).1
      (by decide),
   (getEventName_system_priority_and_unknown_fallback (evOfType 0x42) (by decide)).2
      (by decide) (by decide)⟩

/-- C3: `getEventLength` returns the 12 tabulated fixed payload lengths
for their type constants and `-1` for every other type value, including
`NOTE_ON`, `NOTE_OFF` and `TEXT_EVENT`. -/
theorem getEventLength_table_and_sentinel (e : Event)
    (hmem : e.type ∉ [KEY_PRESSURE, CONTROL_CHANGE, PROGRAM_CHANGE, CHANNEL_PRESSURE,
      PITCH_WHEEL_CHANGE, SEQUENCE_NUMBER, MIDI_CHANNEL_PREFIX, END_OF_TRACK, TEMPO,
      SMPTE_OFFSET, TIME_SIGNATURE, KEY_SIGNATURE]) :
    e.getEventLength = -1 ∧
    ((evOfType KEY_PRESSURE).getEventLength = 2 ∧
     (evOfType CONTROL_CHANGE).getEventLength = 2 ∧
     (evOfType PROGRAM_CHANGE).getEventLength = 1 ∧
     (evOfType CHANNEL_PRESSURE).getEventLength = 1 ∧
     (evOfType PITCH_WHEEL_CHANGE).getEventLength = 2 ∧
     (evOfType SEQUENCE_NUMBER).getEventLength = 2 ∧
     (evOfType MIDI_CHANNEL_PREFIX).getEventLength = 1 ∧
     (evOfType END_OF_TRACK).getEventLength = 0 ∧
     (evOfType TEMPO).getEventLength = 3 ∧
     (evOfType SMPTE_OFFSET).getEventLength = 5 ∧
     (evOfType TIME_SIGNATURE).getEventLength = 4 ∧
     (evOfType KEY_SIGNATURE).getEventLength = 2) ∧
    ((evOfType NOTE_ON).getEventLength = -1 ∧
     (evOfType NOTE_OFF).getEventLength = -1 ∧
     (evOfType TEXT_EVENT).getEventLength = -1) := by
  refine ⟨?_, by decide, by decide⟩
  simp only [List.mem_cons, List.not_mem_nil, or_false, not_or] at hmem
  obtain ⟨hq1, hq2, hq3, hq4, hq5, hq6, hq7, hq8, hq9, hq10, hq11, hq12⟩ := hmem
  rw [Event.getEventLength, if_neg hq1, if_neg hq2, if_neg hq3, if_neg hq4,
    if_neg hq5, if_neg hq6, if_neg hq7, if_neg hq8, if_neg hq9, if_neg hq10,
    if_neg hq11, if_neg hq12]

/-- C3 witness: `NOTE_ON` is untabulated, so its length is the sentinel. -/
theorem getEventLength_table_and_sentinel_witness :
    (evOfType NOTE_ON).getEventLength = -1 :=
  (getEventLength_table_and_sentinel (evOfType NOTE_ON) (by decide)).1

/-- C4: `getNoteName` returns the sharps pitch-class name of `note % 12`
followed by the decimal octave `note / 12 - 1`; in particular `"C4"` for
60, `"A4"` for 69, `"C-1"` for 0 and `"C0"` for 12. -/
theorem getNoteName_pitch_class_and_octave (e : Event) (hbyte : e.note < 256) :
    e.getNoteName =
      sharpsList.getD (e.note % 12) ""
        ++ toString ((e.note / 12 : Nat) - (1 : Int) : Int) ∧
    ({ evOfType 0 with note := 60 } : Event).getNoteName = "C4" ∧
    ({ evOfType 0 with note := 69 } : Event).getNoteName = "A4" ∧
    ({ evOfType 0 with note := 0 } : Event).getNoteName = "C-1" ∧
    ({ evOfType 0 with note := 12 } : Event).getNoteName = "C0" := by
  refine ⟨?_, by decide, by decide, by decide, by decide⟩
  have hmods : e.note % 12 = 0 ∨ e.note % 12 = 1 ∨ e.note % 12 = 2 ∨
      e.note % 12 = 3 ∨ e.note % 12 = 4 ∨ e.note % 12 = 5 ∨ e.note % 12 = 6 ∨
      e.note % 12 = 7 ∨ e.note % 12 = 8 ∨ e.note % 12 = 9 ∨ e.note % 12 = 10 ∨
      e.note % 12 = 11 := by
    omega
  rcases hmods with hm | hm | hm | hm | hm | hm | hm | hm | hm | hm | hm | hm <;>
    simp [Event.getNoteName, hm, sharpsList, List.getD]

/-- C4 witness: note byte 60 renders as `"C4"`. -/
theorem getNoteName_pitch_class_and_octave_witness :
    ({ evOfType 0 with note := 60 } : Event).getNoteName = "C4" :=
  (getNoteName_pitch_class_and_octave { evOfType 0 with note := 60 } (by decide)).2.1

/-- C5: when the assembled hex dump is at most 39 characters, `print`
leaves it unchanged and the padded hex-dump column contains no `"[...]"`
marker; when it exceeds 39 characters, `print` replaces the slice starting
at character index 27 of length `content.length - 34` with `"[...]"`, and
the marker sits exactly at index 27. -/
theorem print_hexdump_truncation (file : List Nat) (pos len : Nat) :
    ((Event.hexDumpContent file pos len).length ≤ 39 →
      Event.truncContent (Event.hexDumpContent file pos len) =
        Event.hexDumpContent file pos len ∧
      strContainsSub
        (Event.formatColumn (Event.truncContent (Event.hexDumpContent file pos len)) 39)
        "[...]" = false) ∧
    (39 < (Event.hexDumpContent file pos len).length →
      Event.truncContent (Event.hexDumpContent file pos len) =
        strReplaceRange (Event.hexDumpContent file pos len) 27
          ((Event.hexDumpContent file pos len).length - 34) "[...]" ∧
      (((Event.truncContent (Event.hexDumpContent file pos len)).data.drop 27).take 5 =
        "[...]".data)) := by
  constructor
  · intro hle
    have heq : Event.truncContent (Event.hexDumpContent file pos len) =
        Event.hexDumpContent file pos len := by
      rw [Event.truncContent, if_neg (by omega)]
    refine ⟨heq, ?_⟩
    rw [heq]
    rw [strContainsSub]
    apply hasSubList_marker_eq_false
    intro c hc
    rw [formatColumn_eq, String.data_append] at hc
    rcases List.mem_append.mp hc with hc | hc
    · exact hexDumpContent_no_bracket file pos len c hc
    · have hsp : c = ' ' := List.eq_of_mem_replicate hc
      subst hsp
      decide
  · intro hgt
    have heq : Event.truncContent (Event.hexDumpContent file pos len) =
        strReplaceRange (Event.hexDumpContent file pos len) 27
          ((Event.hexDumpContent file pos len).length - 34) "[...]" := by
      rw [Event.truncContent, if_pos hgt]
    refine ⟨heq, ?_⟩
    rw [heq]
    have hdlen : (Event.hexDumpContent file pos len).data.length
        = (Event.hexDumpContent file pos len).length := rfl
    have h27 : ((Event.hexDumpContent file pos len).data.take 27).length = 27 := by
      rw [List.length_take]
      omega
    have h5 : ("[...]" : String).data.length = 5 := rfl
    rw [strReplaceRange]
    show ((((Event.hexDumpContent file pos len).data.take 27 ++ "[...]".data ++ _).drop 27).take 5) = _
    rw [List.append_assoc, List.drop_left' h27, List.take_left' h5]

/-- C5 witness: a 13-byte window (39 characters) is left unchanged, and a
14-byte window (42 characters) carries the marker at index 27. -/
theorem print_hexdump_truncation_witness :
    ((Event.hexDumpContent (List.replicate 14 0) 0 13).length ≤ 39 ∧
      Event.truncContent (Event.hexDumpContent (List.replicate 14 0) 0 13) =
        Event.hexDumpContent (List.replicate 14 0) 0 13) ∧
    (39 < (Event.hexDumpContent (List.replicate 14 0) 0 14).length ∧
      ((Event.truncContent (Event.hexDumpContent (List.replicate 14 0) 0 14)).data.drop
          27).take 5 = "[...]".data) :=
  ⟨⟨by decide,
    ((print_hexdump_truncation (List.replicate 14 0) 0 13).1 (by decide)).1⟩,
   ⟨by decide,
    ((print_hexdump_truncation (List.replicate 14 0) 0 14).2 (by decide)).2⟩⟩

/-- C10: the hex dump is three characters per raw byte, so in the
truncation branch the content has length at least 42, the replace start
index 27 lies inside the string, the replaced count is at least 8, and the
truncated content has length exactly 39 — the out-of-range branch of
`std::string::replace` is unreachable. -/
theorem hexdump_truncation_safety (file : List Nat) (pos len : Nat)
    (hlong : 39 < (Event.hexDumpContent file pos len).length) :
    (Event.hexDumpContent file pos len).length = 3 * len ∧
    42 ≤ (Event.hexDumpContent file pos len).length ∧
    27 < (Event.hexDumpContent file pos len).length ∧
    8 ≤ (Event.hexDumpContent file pos len).length - 34 ∧
    27 + ((Event.hexDumpContent file pos len).length - 34) ≤
      (Event.hexDumpContent file pos len).length ∧
    (Event.truncContent (Event.hexDumpContent file pos len)).length = 39 := by
  have hL := hexDumpContent_length file pos len
  have h42 : 42 ≤ (Event.hexDumpContent file pos len).length := by omega
  refine ⟨hL, h42, by omega, by omega, by omega, ?_⟩
  rw [Event.truncContent, if_pos hlong, strReplaceRange]
  have hdlen : (Event.hexDumpContent file pos len).data.length
      = (Event.hexDumpContent file pos len).length := rfl
  rw [String.length_mk]
  rw [List.length_append, List.length_append, List.length_take, List.length_drop]
  have h5 : ("[...]" : String).data.length = 5 := rfl
  rw [h5]
  omega

/-- C10 witness: a 14-byte window triggers the truncation branch and the
truncated content has length exactly 39. -/
theorem hexdump_truncation_safety_witness :
    39 < (Event.hexDumpContent (List.replicate 14 0) 0 14).length ∧
    (Event.truncContent (Event.hexDumpContent (List.replicate 14 0) 0 14)).length = 39 :=
  ⟨by decide,
   (hexdump_truncation_safety (List.replicate 14 0) 0 14 (by decide)).2.2.2.2.2⟩

/-- C8: for the Note-On event (`type = 0x90`, `meta = false`, `note = 60`,
`velocity = 100`, `totalTime = 480`, `delta = 480`), printing at offset
`0x10` over the raw bytes `{0x90, 0x3C, 0x64}` yields a row containing
`"Note on"`, `"Channel 0"`, `"Note C4"`, `"at velocity 100"` and the hex
bytes `"90 3c 64"`. -/
theorem print_note_on_row_contains_fields :
    strContainsSub (noteOnEvent.print 0x10 noteOnFile 3) "Note on" = true ∧
    strContainsSub (noteOnEvent.print 0x10 noteOnFile 3) "Channel 0" = true ∧
    strContainsSub (noteOnEvent.print 0x10 noteOnFile 3) "Note C4" = true ∧
    strContainsSub (noteOnEvent.print 0x10 noteOnFile 3) "at velocity 100" = true ∧
    strContainsSub (noteOnEvent.print 0x10 noteOnFile 3) "90 3c 64" = true := by
  simp only [Event.print, formatColumn_eq]
  decide
